import Mathlib

/-!
Verification of the `QMainWindowCustom` component of rpfm
(`src/rpfm_ui/qt_subclasses/include/q_main_window_custom.h`).

The repository ships only the header for this component: it declares the
constructor `new_q_main_window_custom` (with default arguments `nullptr` for
the confirmation callback and `false` for the dark-theme flag), the private
members `are_you_sure` and `dark_theme_enabled`, the overridden event handlers
`closeEvent`, `moveEvent`, `changeEvent`, `dragEnterEvent`, `dragMoveEvent`,
`dragLeaveEvent`, `dropEvent`, and the `openPack` signal.  The handler bodies
live in a `.cpp` file that is not part of the sources, so the behaviour of the
handlers is modelled here from the specification (each such definition carries
a doc comment starting with `Modelled from the spec:`); the header itself is
the authority for the declaration-level facts (default arguments, privacy of
the members, signatures).

Observable behaviour is captured as a trace of `Effect`s (oracle
consultations, settings-store writes, `openPack` emissions) produced by each
handler, together with the handler's returned verdict where the toolkit has
one (close accepted/ignored, drag accepted/ignored).  Acceptance of an event
is the handler's final verdict, delivered after the handler body has run, so
every effect in a handler's trace happens before the event is accepted or
ignored.
-/

namespace QMainWindowCustomSpec

/-- Window geometry as read from and written to the settings store.  The
storage format is external (spec, non-goals), so only equality of geometries
matters here. -/
structure Geometry where
  xpos : Int
  ypos : Int
  width : Nat
  height : Nat
  deriving DecidableEq, Repr

/-- The two logical window states of the spec state machine: `opened` and
`closing` (spec 4.1: "effectively two logical states — Open and Closing —
with a single transition Open → Closing gated by the confirmation oracle"). -/
inductive WindowState where
  | opened
  | closing
  deriving DecidableEq, Repr

/-- The `QMainWindowCustom` instance: the confirmation oracle (a function
pointer, `nullptr` modelled as `none`; it receives the `is_delete_my_mod`
flag and returns "proceed"), the construction-time `dark_theme_enabled` flag,
and the logical window state.  The busy indicator is purely decorative
(spec glossary) and carries no contract-relevant state, so it is omitted. -/
structure MainWindow where
  are_you_sure : Option (Bool → Bool)
  dark_theme_enabled : Bool
  state : WindowState

/-- Observable side effects of the event handlers: a consultation of the
confirmation oracle with its `is_delete_my_mod` argument, a write of a
geometry to the settings store, and an emission of the `openPack` signal
carrying an ordered list of file paths. -/
inductive Effect where
  | oracleCall (is_delete_my_mod : Bool)
  | settingsWrite (g : Geometry)
  | emitOpenPack (paths : List String)
  deriving DecidableEq, Repr

/-- Whether an effect is a consultation of the confirmation oracle. -/
def Effect.isOracleCall : Effect → Bool
  | Effect.oracleCall _ => true
  | _ => false

/-- Whether an effect is a write to the settings store. -/
def Effect.isSettingsWrite : Effect → Bool
  | Effect.settingsWrite _ => true
  | _ => false

/-- Modelled from the spec: the `QMainWindowCustom` constructor (the body of
`QMainWindowCustom::QMainWindowCustom` is not in the sources).  Construction
stores the oracle and the theme flag, fixed for the lifetime of the window,
and produces an open window (spec 4.1 Construction). -/
def mkMainWindow (oracle : Option (Bool → Bool)) (is_dark_theme_enabled : Bool) :
    MainWindow :=
  { are_you_sure := oracle
    dark_theme_enabled := is_dark_theme_enabled
    state := WindowState.opened }

/-- The `extern "C"` factory `new_q_main_window_custom` called with both
optional arguments omitted: the header (line 12) declares the defaults
`are_you_sure = nullptr` and `is_dark_theme_enabled = false`. -/
def new_q_main_window_custom_defaulted : MainWindow :=
  mkMainWindow none false

/-- Modelled from the spec: the body of `QMainWindowCustom::closeEvent` is not
in the sources.  Per spec 4.1, on a close request from the open state the
oracle (if set) is called with the "is deletion" flag `false`; if it returns
`false` the event is ignored and no further side effects occur; if it returns
`true` or no oracle is set, the current geometry is written to the settings
store and the event is accepted, moving the window to `closing`.  A close
attempt on a window already `closing` is terminal and unconditional with no
observable effect (spec 4.1 state machine, spec 8).  Returns the updated
window, whether the close event was accepted, and the effect trace. -/
def closeEvent (w : MainWindow) (geom : Geometry) :
    MainWindow × Bool × List Effect :=
  match w.state with
  | WindowState.closing => (w, true, [])
  | WindowState.opened =>
    match w.are_you_sure with
    | none =>
      ({ w with state := WindowState.closing }, true, [Effect.settingsWrite geom])
    | some oracle =>
      if oracle false then
        ({ w with state := WindowState.closing }, true,
          [Effect.oracleCall false, Effect.settingsWrite geom])
      else
        (w, false, [Effect.oracleCall false])

/-- Modelled from the spec: the body of `QMainWindowCustom::moveEvent` is not
in the sources.  Per spec 4.1, every move event persists the window's new
geometry to the settings store and changes no component state. -/
def moveEvent (w : MainWindow) (newGeom : Geometry) : MainWindow × List Effect :=
  (w, [Effect.settingsWrite newGeom])

/-- The settings store, holding the last written geometry (or nothing before
the first write).  The storage format is external; only "which geometry a read
at quiescence would return" is modelled. -/
def applyEffect (store : Option Geometry) (e : Effect) : Option Geometry :=
  match e with
  | Effect.settingsWrite g => some g
  | _ => store

/-- Replay a trace of effects against the settings store, in trace order. -/
def applyEffects (store : Option Geometry) (es : List Effect) : Option Geometry :=
  es.foldl applyEffect store

/-- The concatenated effect trace of a sequence of consecutive move events,
in event order. -/
def moveMany (w : MainWindow) (geoms : List Geometry) : List Effect :=
  geoms.flatMap (fun g => (moveEvent w g).2)

/-- Run a sequence of close attempts, threading the window state and
concatenating the effect traces in order. -/
def closeMany (w : MainWindow) (geoms : List Geometry) : MainWindow × List Effect :=
  match geoms with
  | [] => (w, [])
  | g :: gs =>
    let r := closeEvent w g
    let rest := closeMany r.1 gs
    (rest.1, r.2.2 ++ rest.2)

/-- A URL in a drag payload's MIME data, as the toolkit reports it: whether it
refers to a local file, and the local path it denotes when it does. -/
structure Url where
  isLocalFile : Bool
  localPath : String
  deriving DecidableEq, Repr

/-- The MIME data of a drag payload: the ordered list of URLs the toolkit
reports, plus any plain-text content (irrelevant to this component). -/
structure MimeData where
  urls : List Url
  text : Option String
  deriving DecidableEq, Repr

/-- The ordered list of local file-system paths in a drag payload, in the
order the toolkit reports them. -/
def localFilePaths (m : MimeData) : List String :=
  (m.urls.filter (fun u => u.isLocalFile)).map (fun u => u.localPath)

/-- Modelled from the spec: the body of `QMainWindowCustom::dragEnterEvent` is
not in the sources.  Per spec 4.1, the proposed drag action is accepted iff
the payload's MIME data contains one or more local file-system URLs;
otherwise the event is ignored.  No state change.  Returns the (unchanged)
window and whether the action was accepted. -/
def dragEnterEvent (w : MainWindow) (m : MimeData) : MainWindow × Bool :=
  (w, !(localFilePaths m).isEmpty)

/-- Modelled from the spec: the body of `QMainWindowCustom::dragMoveEvent` is
not in the sources.  Per spec 4.1 it applies the same acceptance rule as
drag-enter, with no state change. -/
def dragMoveEvent (w : MainWindow) (m : MimeData) : MainWindow × Bool :=
  (w, !(localFilePaths m).isEmpty)

/-- Modelled from the spec: the body of `QMainWindowCustom::dragLeaveEvent` is
not in the sources.  Per spec 4.1 drag-leave is a no-op. -/
def dragLeaveEvent (w : MainWindow) : MainWindow :=
  w

/-- Modelled from the spec: the body of `QMainWindowCustom::dropEvent` is not
in the sources.  Per spec 4.1, a drop extracts the list of local file paths
from the payload and emits the `openPack` signal carrying that ordered
sequence, once. -/
def dropEvent (w : MainWindow) (m : MimeData) : MainWindow × List Effect :=
  (w, [Effect.emitOpenPack (localFilePaths m)])

/-- The kinds of change events relevant to the contract: a palette / theme
change, or anything else. -/
inductive EventType where
  | paletteChange
  | other
  deriving DecidableEq, Repr

/-- The visual variant applied to the window chrome: which icon/style set is
in use (dark or light), and the environment theme it was matched against. -/
structure VisualVariant where
  darkIcons : Bool
  envDark : Bool
  deriving DecidableEq, Repr

/-- Modelled from the spec: the variant selection of
`QMainWindowCustom::changeEvent` (body not in the sources).  Per spec 4.1 the
icon/style variant matches the stored `dark_theme_enabled` flag and the host
environment's reported theme; the flag picks between the two distinct icon
sets (spec 8). -/
def selectVariant (dark_flag : Bool) (envDark : Bool) : VisualVariant :=
  { darkIcons := dark_flag, envDark := envDark }

/-- Modelled from the spec: the body of `QMainWindowCustom::changeEvent` is
not in the sources.  Per spec 4.1, on a palette-change event the window
re-evaluates and applies the variant matching its `dark_theme_enabled` flag
and the environment's reported theme, independently of the previously applied
variant; other events leave the applied variant alone.  Purely visual: no
external callback, no component state change. -/
def changeEvent (w : MainWindow) (e : EventType) (envDark : Bool)
    (prior : VisualVariant) : VisualVariant :=
  match e with
  | EventType.paletteChange => selectVariant w.dark_theme_enabled envDark
  | EventType.other => prior

/-- The outcome of one move event against a possibly failing settings store:
whether the move itself completed, whether a user-visible error was raised,
how many write attempts were issued, and whether the failure was fatal. -/
structure MoveOutcome where
  moveCompleted : Bool
  userVisibleError : Bool
  writeAttempts : Nat
  fatal : Bool
  deriving DecidableEq, Repr

/-- Modelled from the spec: `QMainWindowCustom::moveEvent` against a settings
store whose write may fail (body not in the sources).  Per spec 4.1 and 7(c),
persistence is best-effort and fire-and-forget: a single write is issued and
its failure is silently discarded — never surfaced, never retried, never
fatal, and never blocking the move.  `writeSucceeds` reports whether the
store's single write succeeded. -/
def moveEventFallible (w : MainWindow) (_newGeom : Geometry) (_writeSucceeds : Bool) :
    MainWindow × MoveOutcome :=
  (w, { moveCompleted := true
        userVisibleError := false
        writeAttempts := 1
        fatal := false })

/-- A concrete oracle that always refuses. -/
def oracleNo : Bool → Bool := fun _ => false

/-- A concrete oracle that always consents. -/
def oracleYes : Bool → Bool := fun _ => true

/-- A concrete geometry used by the witnesses. -/
def geom0 : Geometry := { xpos := 10, ypos := 20, width := 800, height := 600 }

/-- A second concrete geometry used by the witnesses. -/
def geom1 : Geometry := { xpos := 30, ypos := 40, width := 1024, height := 768 }

/-- A concrete open window whose oracle always refuses. -/
def wOpenNo : MainWindow := mkMainWindow (some oracleNo) false

/-- A concrete open window whose oracle always consents. -/
def wOpenYes : MainWindow := mkMainWindow (some oracleYes) false

/-- A close attempt on a window that is already closing returns the window
unchanged with an empty effect trace. -/
theorem closeEvent_of_closing (w : MainWindow) (g : Geometry)
    (h : w.state = WindowState.closing) : closeEvent w g = (w, true, []) := by
  unfold closeEvent
  rw [h]

/-- Any sequence of close attempts on a window that is already closing leaves
it unchanged and produces no effects. -/
theorem closeMany_of_closing (gs : List Geometry) :
    ∀ (w : MainWindow), w.state = WindowState.closing → closeMany w gs = (w, []) := by
  induction gs with
  | nil => intro w h; rfl
  | cons g gs ih =>
    intro w h
    simp [closeMany, closeEvent_of_closing w g h, ih w h]

/-- C1: on a close request from the open state, a supplied confirmation oracle
is called with `is_delete_my_mod = false` (it is the first effect of the
trace); if the oracle returns `false` the event is rejected, the window is
unchanged (stays open) and the trace holds nothing but the oracle call; if
the oracle returns `true`, or no oracle was supplied, the event is accepted. -/
theorem closeEvent_oracle_contract (w : MainWindow) (g : Geometry)
    (hopen : w.state = WindowState.opened) :
    (∀ f, w.are_you_sure = some f →
      ((closeEvent w g).2.2.head? = some (Effect.oracleCall false) ∧
       (f false = false →
         (closeEvent w g).2.1 = false ∧ (closeEvent w g).1 = w ∧
         (closeEvent w g).2.2 = [Effect.oracleCall false]) ∧
       (f false = true → (closeEvent w g).2.1 = true))) ∧
    (w.are_you_sure = none → (closeEvent w g).2.1 = true) := by
  constructor
  · intro f hf
    cases hfb : f false with
    | false => simp [closeEvent, hopen, hf, hfb]
    | true => simp [closeEvent, hopen, hf, hfb]
  · intro hnone
    simp [closeEvent, hopen, hnone]

/-- C1 witness: the contract evaluated on a concrete open window whose oracle
refuses. -/
theorem closeEvent_oracle_contract_witness :
    wOpenNo.state = WindowState.opened ∧
    ((∀ f, wOpenNo.are_you_sure = some f →
      ((closeEvent wOpenNo geom0).2.2.head? = some (Effect.oracleCall false) ∧
       (f false = false →
         (closeEvent wOpenNo geom0).2.1 = false ∧
         (closeEvent wOpenNo geom0).1 = wOpenNo ∧
         (closeEvent wOpenNo geom0).2.2 = [Effect.oracleCall false]) ∧
       (f false = true → (closeEvent wOpenNo geom0).2.1 = true))) ∧
     (wOpenNo.are_you_sure = none → (closeEvent wOpenNo geom0).2.1 = true)) :=
  ⟨rfl, closeEvent_oracle_contract wOpenNo geom0 rfl⟩

/-- C2: on a close attempt from the open state, a present oracle is consulted
exactly once (never zero, never twice), an absent oracle is consulted zero
times, and the window transitions to `closing` exactly when that single
consultation returns `true` or no oracle is present. -/
theorem closeEvent_oracle_once (w : MainWindow) (g : Geometry)
    (hopen : w.state = WindowState.opened) :
    (∀ f, w.are_you_sure = some f →
      (closeEvent w g).2.2.countP (fun e => e.isOracleCall) = 1) ∧
    (w.are_you_sure = none →
      (closeEvent w g).2.2.countP (fun e => e.isOracleCall) = 0) ∧
    ((closeEvent w g).1.state = WindowState.closing ↔
      (w.are_you_sure = none ∨ ∃ f, w.are_you_sure = some f ∧ f false = true)) := by
  refine ⟨?_, ?_, ?_⟩
  · intro f hf
    cases hfb : f false with
    | false => simp [closeEvent, hopen, hf, hfb, Effect.isOracleCall, List.countP_cons]
    | true => simp [closeEvent, hopen, hf, hfb, Effect.isOracleCall, List.countP_cons]
  · intro hnone
    simp [closeEvent, hopen, hnone, Effect.isOracleCall, List.countP_cons]
  · cases ho : w.are_you_sure with
    | none => simp [closeEvent, hopen, ho]
    | some f =>
      cases hfb : f false with
      | false => simp [closeEvent, hopen, ho, hfb]
      | true => simp [closeEvent, hopen, ho, hfb]

/-- C2 witness: the single-consultation invariant evaluated on a concrete open
window whose oracle consents. -/
theorem closeEvent_oracle_once_witness :
    wOpenYes.state = WindowState.opened ∧
    ((∀ f, wOpenYes.are_you_sure = some f →
      (closeEvent wOpenYes geom0).2.2.countP (fun e => e.isOracleCall) = 1) ∧
     (wOpenYes.are_you_sure = none →
      (closeEvent wOpenYes geom0).2.2.countP (fun e => e.isOracleCall) = 0) ∧
     ((closeEvent wOpenYes geom0).1.state = WindowState.closing ↔
      (wOpenYes.are_you_sure = none ∨
        ∃ f, wOpenYes.are_you_sure = some f ∧ f false = true))) :=
  ⟨rfl, closeEvent_oracle_once wOpenYes geom0 rfl⟩

/-- C3: on a close attempt from the open state, if the event is accepted the
current geometry is written to the settings store exactly once and that write
is the last effect of the handler's trace, hence before the acceptance verdict
(which follows the whole trace); if the event is refused by the oracle, no
settings-store write occurs during that attempt. -/
theorem closeEvent_geometry_write (w : MainWindow) (g : Geometry)
    (hopen : w.state = WindowState.opened) :
    ((closeEvent w g).2.1 = true →
      (closeEvent w g).2.2.getLast? = some (Effect.settingsWrite g) ∧
      (closeEvent w g).2.2.countP (fun e => e.isSettingsWrite) = 1) ∧
    ((closeEvent w g).2.1 = false →
      (closeEvent w g).2.2.countP (fun e => e.isSettingsWrite) = 0) := by
  cases ho : w.are_you_sure with
  | none =>
    simp [closeEvent, hopen, ho, Effect.isSettingsWrite, List.countP_cons]
  | some f =>
    cases hfb : f false with
    | false =>
      simp [closeEvent, hopen, ho, hfb, Effect.isSettingsWrite, List.countP_cons]
    | true =>
      simp [closeEvent, hopen, ho, hfb, Effect.isSettingsWrite, List.countP_cons]

/-- C3 witness: the geometry-write contract evaluated on a concrete open
window whose oracle consents. -/
theorem closeEvent_geometry_write_witness :
    wOpenYes.state = WindowState.opened ∧
    (((closeEvent wOpenYes geom1).2.1 = true →
      (closeEvent wOpenYes geom1).2.2.getLast? = some (Effect.settingsWrite geom1) ∧
      (closeEvent wOpenYes geom1).2.2.countP (fun e => e.isSettingsWrite) = 1) ∧
     ((closeEvent wOpenYes geom1).2.1 = false →
      (closeEvent wOpenYes geom1).2.2.countP (fun e => e.isSettingsWrite) = 0)) :=
  ⟨rfl, closeEvent_geometry_write wOpenYes geom1 rfl⟩

/-- C4: the open-to-closing transition happens exactly once: an accepted close
attempt from the open state moves the window to `closing`, and every
subsequent close attempt leaves the window unchanged and produces no effect
at all — no second transition, no second oracle consultation, no second
geometry write. -/
theorem close_transitions_once (w : MainWindow) (g : Geometry) (gs : List Geometry)
    (hopen : w.state = WindowState.opened)
    (hacc : (closeEvent w g).2.1 = true) :
    (closeEvent w g).1.state = WindowState.closing ∧
    closeMany (closeEvent w g).1 gs = ((closeEvent w g).1, []) := by
  have hclosing : (closeEvent w g).1.state = WindowState.closing := by
    cases ho : w.are_you_sure with
    | none => simp [closeEvent, hopen, ho]
    | some f =>
      cases hfb : f false with
      | true => simp [closeEvent, hopen, ho, hfb]
      | false =>
        rw [show closeEvent w g = (w, false, [Effect.oracleCall false]) from by
          simp [closeEvent, hopen, ho, hfb]] at hacc
        cases hacc
  exact ⟨hclosing, closeMany_of_closing gs _ hclosing⟩

/-- C4 witness: a defaulted window (no oracle) accepts the close, and a
subsequent close attempt has no effect. -/
theorem close_transitions_once_witness :
    new_q_main_window_custom_defaulted.state = WindowState.opened ∧
    (closeEvent new_q_main_window_custom_defaulted geom0).2.1 = true ∧
    ((closeEvent new_q_main_window_custom_defaulted geom0).1.state =
        WindowState.closing ∧
     closeMany (closeEvent new_q_main_window_custom_defaulted geom0).1 [geom1] =
       ((closeEvent new_q_main_window_custom_defaulted geom0).1, [])) :=
  ⟨rfl, rfl, close_transitions_once new_q_main_window_custom_defaulted geom0 [geom1] rfl rfl⟩

/-- Replaying the traces of a nonempty sequence of move events against the
settings store, in order, leaves the store holding the last geometry. -/
theorem applyEffects_moveMany (w : MainWindow) :
    ∀ (geoms : List Geometry) (s : Option Geometry) (g : Geometry),
      geoms.getLast? = some g → applyEffects s (moveMany w geoms) = some g := by
  intro geoms
  induction geoms with
  | nil => intro s g h; cases h
  | cons g0 gs ih =>
    intro s g h
    cases gs with
    | nil =>
      simp at h
      subst h
      rfl
    | cons g1 gs2 =>
      rw [List.getLast?_cons_cons] at h
      have h2 := ih (some g0) g h
      simpa [moveMany, moveEvent, applyEffects, applyEffect] using h2

/-- C5: every move event writes exactly the new geometry to the settings
store, and after any nonempty sequence of consecutive move events, replayed in
event order, the store holds the geometry of the last move: last-write-wins,
no reordering, no stale intermediate value surviving at quiescence. -/
theorem moveEvent_persists_last_write (w : MainWindow) (s : Option Geometry)
    (geoms : List Geometry) (g : Geometry)
    (hlast : geoms.getLast? = some g) :
    (∀ g0, moveEvent w g0 = (w, [Effect.settingsWrite g0])) ∧
    applyEffects s (moveMany w geoms) = some g :=
  ⟨fun _ => rfl, applyEffects_moveMany w geoms s g hlast⟩

/-- C5 witness: two consecutive moves leave the store holding the second
geometry. -/
theorem moveEvent_persists_last_write_witness :
    [geom0, geom1].getLast? = some geom1 ∧
    ((∀ g0, moveEvent wOpenNo g0 = (wOpenNo, [Effect.settingsWrite g0])) ∧
     applyEffects none (moveMany wOpenNo [geom0, geom1]) = some geom1) :=
  ⟨rfl, moveEvent_persists_last_write wOpenNo none [geom0, geom1] geom1 rfl⟩

/-- C6: drag-enter and drag-move accept the proposed action exactly when the
payload's MIME data contains at least one local file URL, and neither handler
changes any component state. -/
theorem dragEnter_dragMove_accept_iff (w : MainWindow) (m : MimeData) :
    ((dragEnterEvent w m).2 = true ↔ localFilePaths m ≠ []) ∧
    (dragEnterEvent w m).1 = w ∧
    ((dragMoveEvent w m).2 = true ↔ localFilePaths m ≠ []) ∧
    (dragMoveEvent w m).1 = w := by
  refine ⟨?_, rfl, ?_, rfl⟩ <;>
    simp [dragEnterEvent, dragMoveEvent]

/-- C7: a drop emits the openPack notification exactly once (the trace is a
single emission), carrying exactly the payload's local file paths in the
order the toolkit reports them — nothing dropped, duplicated or reordered —
and changes no component state. -/
theorem dropEvent_emits_openPack_once (w : MainWindow) (m : MimeData) :
    (dropEvent w m).2 = [Effect.emitOpenPack (localFilePaths m)] ∧
    (dropEvent w m).1 = w :=
  ⟨rfl, rfl⟩

/-- C8: a settings-store write failure during a move event is silently
discarded: the handler's outcome does not depend on whether the write
succeeded, the move completes, no user-visible error is raised, exactly one
write is attempted (so never retried), and the failure is never fatal. -/
theorem moveEvent_write_failure_swallowed (w : MainWindow) (g : Geometry) :
    (∀ b1 b2, moveEventFallible w g b1 = moveEventFallible w g b2) ∧
    (moveEventFallible w g false).1 = w ∧
    (moveEventFallible w g false).2.moveCompleted = true ∧
    (moveEventFallible w g false).2.userVisibleError = false ∧
    (moveEventFallible w g false).2.writeAttempts = 1 ∧
    (moveEventFallible w g false).2.fatal = false :=
  ⟨fun _ _ => rfl, rfl, rfl, rfl, rfl, rfl⟩

/-- C9: on a palette-change event the applied visual variant is exactly the
variant selected by the construction-time dark_theme_enabled flag and the
environment's reported theme — independent of the previously applied variant
and of any other window state — and flag values true and false select two
distinct variants for every environment theme. -/
theorem changeEvent_variant_deterministic (w : MainWindow) (envDark : Bool)
    (prior : VisualVariant) :
    changeEvent w EventType.paletteChange envDark prior =
      selectVariant w.dark_theme_enabled envDark ∧
    (∀ e, selectVariant true e ≠ selectVariant false e) := by
  refine ⟨rfl, ?_⟩
  intro e
  simp [selectVariant]

/-- A close attempt never changes the configuration fixed at construction:
the oracle pointer and the theme flag survive every close attempt. -/
theorem closeEvent_preserves_config (w : MainWindow) (g : Geometry) :
    (closeEvent w g).1.are_you_sure = w.are_you_sure ∧
    (closeEvent w g).1.dark_theme_enabled = w.dark_theme_enabled := by
  cases hs : w.state with
  | closing => simp [closeEvent, hs]
  | opened =>
    cases ho : w.are_you_sure with
    | none => simp [closeEvent, hs, ho]
    | some f =>
      cases hfb : f false <;> simp [closeEvent, hs, ho, hfb]

/-- C10: with both optional arguments omitted the factory yields a window
whose oracle is null and whose dark_theme_enabled flag is false (the header
declares exactly these defaults); such a window accepts every close attempt
unconditionally; and the two construction-time values are never reassigned by
any of the component's operations (the header declares them private with no
mutator). -/
theorem defaulted_construction_and_no_mutator :
    new_q_main_window_custom_defaulted.are_you_sure = none ∧
    new_q_main_window_custom_defaulted.dark_theme_enabled = false ∧
    new_q_main_window_custom_defaulted.state = WindowState.opened ∧
    (∀ g, (closeEvent new_q_main_window_custom_defaulted g).2.1 = true ∧
      (closeEvent new_q_main_window_custom_defaulted g).1.state =
        WindowState.closing) ∧
    (∀ w g,
      (closeEvent w g).1.are_you_sure = w.are_you_sure ∧
      (closeEvent w g).1.dark_theme_enabled = w.dark_theme_enabled ∧
      (moveEvent w g).1 = w) ∧
    (∀ w m, (dragEnterEvent w m).1 = w ∧ (dragMoveEvent w m).1 = w ∧
      (dropEvent w m).1 = w ∧ dragLeaveEvent w = w) :=
  ⟨rfl, rfl, rfl, fun _ => ⟨rfl, rfl⟩,
   fun w g => ⟨(closeEvent_preserves_config w g).1,
     (closeEvent_preserves_config w g).2, rfl⟩,
   fun _ _ => ⟨rfl, rfl, rfl, rfl⟩⟩

end QMainWindowCustomSpec
